import Mathlib

/-!
Verification development for the litellm Spanner setup scripts
(`spanner-schema.py`, `spanner-connect.py`, `test_spanner.py`).

The scripts are shallowly embedded: every external database effect
(client construction, instance/database existence checks, DDL batch
application, transactional writes, snapshot reads) is modelled by an
explicit environment record or state-passing function, and the control
flow of each Python function is translated branch by branch.  Theorems
at the end of the file settle the specification claims against these
definitions.
-/

/-! ## Character-list string utilities

The Python code classifies DDL statements and filters table names with
textual operations (`startswith`, SQL `LIKE 'litellm_%'`, `ORDER BY
table_name`).  These are modelled over `String.data` so that every
concrete instance is computable by `decide`. -/

/-- Boolean test that the first character list is an initial segment of the
second; model of Python `str.startswith` and of an SQL `LIKE` pattern that
ends in `%`. -/
def isPre : List Char → List Char → Bool
  | [], _ => true
  | _ :: _, [] => false
  | a :: as, b :: bs => a = b && isPre as bs

/-- Characters of `l` strictly before the first character satisfying `p`. -/
def takeUntil (p : Char → Bool) : List Char → List Char
  | [] => []
  | c :: cs => if p c then [] else c :: takeUntil p cs

/-- Drops characters up to and including the first occurrence of `pat`;
returns `[]` when `pat` does not occur. -/
def dropThrough (pat : List Char) : List Char → List Char
  | [] => []
  | c :: cs => if isPre pat (c :: cs) then (c :: cs).drop pat.length else dropThrough pat cs

/-- Lexicographic order on strings via their character lists; model of the
ordering used by SQL `ORDER BY table_name`. -/
def strLe (a b : String) : Prop := a.data ≤ b.data

instance : DecidableRel strLe := fun a b => (inferInstance : Decidable (a.data ≤ b.data))

instance : IsTotal String strLe := ⟨fun a b => le_total a.data b.data⟩

instance : IsTrans String strLe := ⟨fun _ _ _ h1 h2 => le_trans h1 h2⟩

instance : IsAntisymm String strLe := ⟨fun a b h1 h2 => by
  cases a; cases b; simp only [strLe] at h1 h2; simp [le_antisymm h1 h2]⟩

/-- Recognizes a table-creation DDL statement. -/
def isCreateTable (s : String) : Bool := isPre "CREATE TABLE ".data s.data

/-- Recognizes an index-creation DDL statement. -/
def isCreateIndex (s : String) : Bool := isPre "CREATE INDEX ".data s.data

/-- Name of the table created by a `CREATE TABLE` statement: the token after
the keyword, ended by a space, parenthesis or newline. -/
def createdTableName (s : String) : String :=
  ⟨takeUntil (fun c => c = ' ' || c = '(' || c = '\n') (s.data.drop "CREATE TABLE ".length)⟩

/-- Name of the table referenced by a `CREATE INDEX ... ON table(col)`
statement: the token between " ON " and the opening parenthesis. -/
def indexedTableName (s : String) : String :=
  ⟨takeUntil (fun c => c = '(') (dropThrough " ON ".data s.data)⟩

/-- Filter used by both verification queries: table names matching
`LIKE 'litellm_%'` in `setup_litellm_schema`, and Python
`t.startswith('litellm_')` in `test_spanner_direct`. -/
def hasLitellmPre (t : String) : Bool := isPre "litellm_".data t.data

/-! ## DDL statement list

Verbatim translation of `get_litellm_spanner_ddl` from
`spanner-schema.py`: five `CREATE TABLE` statements followed by six
`CREATE INDEX` statements. -/

/-- DDL statements for the LiteLLM tables in Spanner PostgreSQL dialect,
in the order returned by `get_litellm_spanner_ddl`. -/
def get_litellm_spanner_ddl : List String :=
  ["CREATE TABLE litellm_usertable (
    user_id character varying NOT NULL,
    user_email character varying,
    user_role character varying(50),
    teams character varying[],
    max_budget double precision,
    spend double precision,
    user_list_table_id character varying,
    table_name character varying(50),
    created_at SPANNER.COMMIT_TIMESTAMP NOT NULL,
    updated_at SPANNER.COMMIT_TIMESTAMP NOT NULL,
    PRIMARY KEY (user_id)
)",
   "CREATE TABLE litellm_teamtable (
    team_id character varying NOT NULL,
    team_alias character varying,
    organization_id character varying,
    team_metadata jsonb,
    max_budget double precision,
    spend double precision,
    models character varying[],
    blocked boolean,
    created_at SPANNER.COMMIT_TIMESTAMP NOT NULL,
    updated_at SPANNER.COMMIT_TIMESTAMP NOT NULL,
    PRIMARY KEY (team_id)
)",
   "CREATE TABLE litellm_proxymodeltable (
    id character varying NOT NULL,
    model_name character varying(200),
    litellm_params jsonb,
    model_info jsonb,
    created_at SPANNER.COMMIT_TIMESTAMP NOT NULL,
    updated_at SPANNER.COMMIT_TIMESTAMP NOT NULL,
    PRIMARY KEY (id)
)",
   "CREATE TABLE litellm_usagetable (
    request_id character varying NOT NULL,
    call_type character varying(50),
    api_key character varying,
    spend double precision,
    total_tokens bigint,
    prompt_tokens bigint,
    completion_tokens bigint,
    successful_requests bigint,
    failed_requests bigint,
    model character varying(200),
    model_id character varying,
    model_group character varying,
    api_base character varying,
    user_id character varying,
    team_id character varying,
    organization_id character varying,
    request_tags character varying[],
    end_user character varying,
    requester_ip_address character varying(45),
    starttime timestamptz,
    endtime timestamptz,
    completionstarttime timestamptz,
    created_at SPANNER.COMMIT_TIMESTAMP NOT NULL,
    updated_at SPANNER.COMMIT_TIMESTAMP NOT NULL,
    PRIMARY KEY (request_id)
)",
   "CREATE TABLE litellm_verificationtoken (
    token character varying NOT NULL,
    key_name character varying,
    key_alias character varying,
    spend double precision,
    max_budget double precision,
    user_id character varying,
    team_id character varying,
    max_parallel_requests bigint,
    metadata jsonb,
    tpm_limit double precision,
    rpm_limit double precision,
    model_spend jsonb,
    model_max_budget jsonb,
    expires timestamptz,
    models character varying[],
    aliases jsonb,
    config jsonb,
    blocked boolean,
    created_at SPANNER.COMMIT_TIMESTAMP NOT NULL,
    updated_at SPANNER.COMMIT_TIMESTAMP NOT NULL,
    PRIMARY KEY (token)
)",
   "CREATE INDEX idx_usage_user_id ON litellm_usagetable(user_id)",
   "CREATE INDEX idx_usage_team_id ON litellm_usagetable(team_id)",
   "CREATE INDEX idx_usage_model ON litellm_usagetable(model)",
   "CREATE INDEX idx_usage_created_at ON litellm_usagetable(created_at)",
   "CREATE INDEX idx_verification_user_id ON litellm_verificationtoken(user_id)",
   "CREATE INDEX idx_verification_team_id ON litellm_verificationtoken(team_id)"]

/-- Table names in the declaration order of the five `CREATE TABLE`
statements. -/
def litellm_table_names : List String :=
  ["litellm_usertable", "litellm_teamtable", "litellm_proxymodeltable",
   "litellm_usagetable", "litellm_verificationtoken"]

/-- The five table names in lexicographic order. -/
def litellm_table_names_sorted : List String :=
  ["litellm_proxymodeltable", "litellm_teamtable", "litellm_usagetable",
   "litellm_usertable", "litellm_verificationtoken"]

/-! ## Fixed-size chunking

Model of the slicing loop in `setup_litellm_schema`:
`for i in range(0, len(ddl_statements), chunk_size): chunk = ddl_statements[i:i + chunk_size]`.
The auxiliary function recurses on a fuel argument equal to the list
length so that it is structurally recursive and kernel-computable. -/

/-- Auxiliary chunking function; chunk size is `s + 1`, `fuel` bounds the
number of produced chunks. -/
def chunkedAux (s : Nat) : Nat → List α → List (List α)
  | _, [] => []
  | 0, _ :: _ => []
  | fuel + 1, x :: xs => ((x :: xs).take (s + 1)) :: chunkedAux s fuel (xs.drop s)

/-- Splits `l` into contiguous chunks of `size` elements (the final chunk may
be shorter).  For `size = 0` the Python slicing loop would not terminate
(`range` rejects a zero step), so the result is defined as `[]`. -/
def chunked (size : Nat) (l : List α) : List (List α) :=
  match size with
  | 0 => []
  | s + 1 => chunkedAux s l.length l

/-! ## Connectivity probing

Environment model for the external Spanner service: which of the probed
steps would succeed.  Both scripts read the target identifiers from
environment variables with defaults; the resolved values form the
`TargetDescriptor`. -/

/-- Resolved target identifiers (project, instance, database). -/
structure TargetDescriptor where
  projectId : String
  instanceId : String
  databaseId : String
deriving DecidableEq

/-- External-world outcomes for one run: whether client construction, the
instance existence check, the database existence check and the trivial
`SELECT 1` liveness query succeed. -/
structure SpannerEnv where
  target : TargetDescriptor
  clientInitOk : Bool
  instanceExists : Bool
  databaseExists : Bool
  queryOk : Bool
deriving DecidableEq

/-- Live client handle, as returned by `spanner.Client(project=...)`. -/
structure SpannerClient where
  projectId : String
deriving DecidableEq

/-- Live instance handle, as returned by `spanner_client.instance(...)`. -/
structure SpannerInstance where
  instanceId : String
deriving DecidableEq

/-- Live database handle, as returned by `instance.database(...)`. -/
structure SpannerDatabase where
  databaseId : String
deriving DecidableEq

/-- Observable steps and diagnostics of a connectivity probe, in the order
the script performs them. -/
inductive ProbeStep where
  | initClient
  | checkInstance
  | checkDatabase
  | runLiveness
  | diagInstanceMissing
  | diagDatabaseMissing
  | diagDatabaseWillBeCreated
  | diagConnFailed
deriving DecidableEq

namespace SpannerConnect

/-- Model of `test_spanner_connection` in `spanner-connect.py`: returns the
boolean result of the probe together with the trace of performed existence
checks and emitted diagnostics.  Any raised exception is caught by the
enclosing `except` and yields `false` with a connection-failed diagnostic. -/
def test_spanner_connection (env : SpannerEnv) : Bool × List ProbeStep :=
  if env.clientInitOk = false then
    (false, [ProbeStep.initClient, ProbeStep.diagConnFailed])
  else if env.instanceExists = false then
    (false, [ProbeStep.initClient, ProbeStep.checkInstance, ProbeStep.diagInstanceMissing])
  else if env.databaseExists = false then
    (false, [ProbeStep.initClient, ProbeStep.checkInstance, ProbeStep.checkDatabase,
             ProbeStep.diagDatabaseMissing])
  else if env.queryOk = false then
    (false, [ProbeStep.initClient, ProbeStep.checkInstance, ProbeStep.checkDatabase,
             ProbeStep.runLiveness, ProbeStep.diagConnFailed])
  else
    (true, [ProbeStep.initClient, ProbeStep.checkInstance, ProbeStep.checkDatabase,
            ProbeStep.runLiveness])

end SpannerConnect

/-- Return value of `test_spanner_connection` in `spanner-schema.py`:
the success flag and the three optional handles. -/
structure SchemaConnResult where
  success : Bool
  client : Option SpannerClient
  inst : Option SpannerInstance
  database : Option SpannerDatabase
deriving DecidableEq

namespace SpannerSchema

/-- Model of `test_spanner_connection` in `spanner-schema.py`.  Unlike the
`spanner-connect.py` variant, a missing database is reported with the
message "Database does not exist - will be created during setup" and the
function still returns `(True, client, instance, database)`;
`database.exists()` is evaluated twice (once to report, once to guard the
liveness query). -/
def test_spanner_connection (env : SpannerEnv) : SchemaConnResult × List ProbeStep :=
  if env.clientInitOk = false then
    (⟨false, none, none, none⟩, [ProbeStep.initClient, ProbeStep.diagConnFailed])
  else if env.instanceExists = false then
    (⟨false, none, none, none⟩,
     [ProbeStep.initClient, ProbeStep.checkInstance, ProbeStep.diagInstanceMissing])
  else if env.databaseExists = false then
    (⟨true, some ⟨env.target.projectId⟩, some ⟨env.target.instanceId⟩,
      some ⟨env.target.databaseId⟩⟩,
     [ProbeStep.initClient, ProbeStep.checkInstance, ProbeStep.checkDatabase,
      ProbeStep.diagDatabaseWillBeCreated, ProbeStep.checkDatabase])
  else if env.queryOk = false then
    (⟨false, none, none, none⟩,
     [ProbeStep.initClient, ProbeStep.checkInstance, ProbeStep.checkDatabase,
      ProbeStep.checkDatabase, ProbeStep.runLiveness, ProbeStep.diagConnFailed])
  else
    (⟨true, some ⟨env.target.projectId⟩, some ⟨env.target.instanceId⟩,
      some ⟨env.target.databaseId⟩⟩,
     [ProbeStep.initClient, ProbeStep.checkInstance, ProbeStep.checkDatabase,
      ProbeStep.checkDatabase, ProbeStep.runLiveness])

end SpannerSchema

/-! ## Schema provisioning

Model of `setup_litellm_schema`: the DDL list is chunked with
`chunk_size = 5`, each chunk is submitted through
`update_database_ddl(database=..., statements=chunk)` and awaited with
`operation.result(timeout=300)`.  The external admin service is modelled
by a predicate `ok` on batch indices: `ok i = true` when the `i`-th
submitted batch operation completes successfully, `false` when it raises.
The returned trace lists each submitted batch with the timeout passed to
its `result` call. -/

/-- Timeout (seconds) passed to `operation.result` for every DDL batch and
for database creation. -/
def ddl_timeout : Nat := 300

/-- Submits the batches in order starting at batch index `i`; stops at the
first failing batch.  Returns the overall success flag and the trace of
submitted `(statements, timeout)` administrative calls. -/
def runDdlBatches (ok : Nat → Bool) : Nat → List (List String) → Bool × List (List String × Nat)
  | _, [] => (true, [])
  | i, b :: bs =>
    if ok i then
      let r := runDdlBatches ok (i + 1) bs
      (r.1, (b, ddl_timeout) :: r.2)
    else
      (false, [(b, ddl_timeout)])

/-- SQL catalog query of `setup_litellm_schema`:
table names of schema `public` matching `LIKE 'litellm_%'`, ordered by
`table_name`.  The argument is the list of table names in the `public`
schema of the probed database. -/
def verifyTablesQuery (catalog : List String) : List String :=
  List.insertionSort strLe (catalog.filter hasLitellmPre)

/-- Model of `setup_litellm_schema`: applies the chunked DDL list and, when
all batches succeed, runs the verification snapshot (whose own success is
the external flag `verifySnapshotOk`; the rows it prints are
`verifyTablesQuery` of the database catalog).  Returns the overall success
flag and the trace of submitted DDL batches. -/
def setup_litellm_schema (ok : Nat → Bool) (verifySnapshotOk : Bool) :
    Bool × List (List String × Nat) :=
  let r := runDdlBatches ok 0 (chunked 5 get_litellm_spanner_ddl)
  (r.1 && verifySnapshotOk, r.2)

/-- Model of `create_database_if_not_exists`: an existing database
short-circuits to success; otherwise the create-database administrative
call either completes (`createOk`) or fails. -/
def create_database_if_not_exists (databaseExists createOk : Bool) : Bool :=
  if databaseExists then true else createOk

/-! ## Sample operation runner

State model for the two tables touched by `test_litellm_operations`.
Commit-timestamp columns are modelled by a logical commit clock on the
database state: a transaction that commits stamps its pending-commit
timestamps with the current clock value and advances the clock. -/

/-- Row of `litellm_usertable`.  Nullable columns are `Option`; the
`NOT NULL` commit-timestamp columns are clock values. -/
structure UserRow where
  user_id : String
  user_email : Option String := none
  user_role : Option String := none
  teams : Option (List String) := none
  max_budget : Option Rat := none
  spend : Option Rat := none
  user_list_table_id : Option String := none
  table_name : Option String := none
  created_at : Nat
  updated_at : Nat
deriving DecidableEq

/-- Row of `litellm_verificationtoken`.  Structured (`jsonb`) columns are
kept as opaque optional text; nullable columns are `Option`. -/
structure TokenRow where
  token : String
  key_name : Option String := none
  key_alias : Option String := none
  spend : Option Rat := none
  max_budget : Option Rat := none
  user_id : Option String := none
  team_id : Option String := none
  max_parallel_requests : Option Int := none
  metadata : Option String := none
  tpm_limit : Option Rat := none
  rpm_limit : Option Rat := none
  model_spend : Option String := none
  model_max_budget : Option String := none
  expires : Option Nat := none
  models : Option (List String) := none
  aliases : Option String := none
  config : Option String := none
  blocked : Option Bool := none
  created_at : Nat
  updated_at : Nat
deriving DecidableEq

/-- Contents of the two sample tables plus the logical commit clock. -/
structure DBState where
  usertable : List UserRow
  verificationtoken : List TokenRow
  commitClock : Nat
deriving DecidableEq

/-- Runs a transaction body against the database: on success the commit
clock advances by one; on failure (a raised exception inside the body)
the state is unchanged. -/
def run_in_transaction (db : DBState) (body : DBState → Option DBState) : Option DBState :=
  match body db with
  | none => none
  | some db2 => some { db2 with commitClock := db2.commitClock + 1 }

/-- The sample user row inserted by `insert_test_data`, with both
commit-timestamp columns pending (stamped with the committing
transaction's clock value `ts`). -/
def sampleUserRow (ts : Nat) : UserRow :=
  { user_id := "test-user-123", user_email := some "test@example.com",
    user_role := some "user", max_budget := some 100, spend := some 0,
    table_name := some "user", created_at := ts, updated_at := ts }

/-- The sample token row inserted by `insert_test_data`. -/
def sampleTokenRow (ts : Nat) : TokenRow :=
  { token := "sk-test-token-123", user_id := some "test-user-123",
    max_budget := some 50, spend := some 0, blocked := some false,
    created_at := ts, updated_at := ts }

/-- Transaction body of `insert_test_data`: one `INSERT` into
`litellm_usertable` and one into `litellm_verificationtoken`.  An insert
whose primary key already exists raises (unique-key violation), failing
the transaction. -/
def insert_test_data (db : DBState) : Option DBState :=
  if db.usertable.any (fun r => r.user_id == "test-user-123") then none
  else if db.verificationtoken.any (fun r => r.token == "sk-test-token-123") then none
  else some { db with
    usertable := db.usertable ++ [sampleUserRow db.commitClock],
    verificationtoken := db.verificationtoken ++ [sampleTokenRow db.commitClock] }

/-- Snapshot query `SELECT user_id, user_email, max_budget FROM
litellm_usertable WHERE user_id = $1`. -/
def queryUserRows (uid : String) (db : DBState) : List (String × Option String × Option Rat) :=
  (db.usertable.filter (fun r => r.user_id == uid)).map
    (fun r => (r.user_id, r.user_email, r.max_budget))

/-- Snapshot query `SELECT token, user_id, max_budget FROM
litellm_verificationtoken WHERE user_id = $1`. -/
def queryTokenRows (uid : String) (db : DBState) : List (String × Option String × Option Rat) :=
  (db.verificationtoken.filter (fun r => r.user_id == some uid)).map
    (fun r => (r.token, r.user_id, r.max_budget))

/-- Transaction body of `cleanup_test_data`: `DELETE FROM
litellm_verificationtoken WHERE user_id = $1` followed by `DELETE FROM
litellm_usertable WHERE user_id = $1`, both with `$1 = 'test-user-123'`.
Deletes cannot raise. -/
def cleanup_test_data (db : DBState) : Option DBState :=
  some { db with
    verificationtoken := db.verificationtoken.filter
      (fun r => !(r.user_id == some "test-user-123")),
    usertable := db.usertable.filter (fun r => !(r.user_id == "test-user-123")) }

/-- Outcome of `test_litellm_operations`: success flag, final database
state, and the rows returned by the two snapshot queries. -/
structure OpsResult where
  success : Bool
  finalDb : DBState
  userRows : List (String × Option String × Option Rat)
  tokenRows : List (String × Option String × Option Rat)
deriving DecidableEq

/-- Model of `test_litellm_operations`: insert transaction, read-only
snapshot with the two lookup queries, cleanup transaction.  A failing step
aborts the remaining steps and yields `success = false`. -/
def test_litellm_operations (db : DBState) : OpsResult :=
  match run_in_transaction db insert_test_data with
  | none => ⟨false, db, [], []⟩
  | some db1 =>
    let u := queryUserRows "test-user-123" db1
    let t := queryTokenRows "test-user-123" db1
    match run_in_transaction db1 cleanup_test_data with
    | none => ⟨false, db1, u, t⟩
    | some db2 => ⟨true, db2, u, t⟩

/-- Modelled from the spec: the Sample Operation Runner contract in section
4.4 says the final write transaction "deletes both rows by the same key"
after looking the rows up "by their primary key"; under those words the
cleanup removes exactly the rows whose primary keys equal the inserted
sample keys (`user_id = 'test-user-123'` in the user table, `token =
'sk-test-token-123'` in the token table).  This definition follows the
spec's words and is compared against `cleanup_test_data`, which is what
the code actually does. -/
def specCleanupByPrimaryKey (db : DBState) : DBState :=
  { db with
    verificationtoken := db.verificationtoken.filter
      (fun r => !(r.token == "sk-test-token-123")),
    usertable := db.usertable.filter (fun r => !(r.user_id == "test-user-123")) }

/-! ## Simplified connectivity test (`test_spanner.py`) -/

/-- Observable report of the table-listing part of `test_spanner_direct`:
the ordered catalog rows, the litellm-filtered names, whether the
"No LiteLLM tables found" warning was printed, and whether the
information-schema query itself failed (printed as an error message but
swallowed by the inner `except`). -/
structure DirectVerifyReport where
  allTables : List String
  litellmTables : List String
  warnedNoTables : Bool
  queryFailed : Bool
deriving DecidableEq

/-- Model of `test_spanner_direct` in `test_spanner.py` (its first,
information-schema method): `basicOk` is whether the client/`SELECT 1`
steps of the outer `try` succeed, `catalogQueryOk` whether the catalog
query succeeds, `catalog` the table names of the `public` schema.  The SQL
orders by `table_name`; Python then filters with
`t.startswith('litellm_')` and warns when no name matches.  Returns the
report and the function's boolean result. -/
def test_spanner_direct (basicOk catalogQueryOk : Bool) (catalog : List String) :
    DirectVerifyReport × Bool :=
  if basicOk = false then
    (⟨[], [], false, false⟩, false)
  else if catalogQueryOk = false then
    (⟨[], [], false, true⟩, true)
  else
    let tables := List.insertionSort strLe catalog
    let litellmTables := tables.filter hasLitellmPre
    (⟨tables, litellmTables, litellmTables.isEmpty, false⟩, true)

/-- Model of the `__main__` block of `test_spanner.py`: it runs both tests,
prints a summary, and never calls `sys.exit`, so the process exit code is
`0` on every path.  The second component records whether the all-passed
banner is printed. -/
def test_spanner_script_main (directOk sqlalchemyOk : Bool) : Nat × Bool :=
  (0, directOk && sqlalchemyOk)

/-! ## Main workflow (`spanner-schema.py`) -/

/-- External-world inputs of one run of `main` in `spanner-schema.py`. -/
structure MainWorld where
  prereqOk : Bool
  conn : SpannerEnv
  promptYes : Bool
  createOk : Bool
  ddlOk : Nat → Bool
  verifySnapshotOk : Bool
  opsDb : DBState

/-- Observable outcome of `main`: the process exit code and whether the
"Schema created but operations test failed" warning was printed. -/
structure MainOutcome where
  exitCode : Nat
  opsWarning : Bool
deriving DecidableEq

/-- Model of `main` in `spanner-schema.py`.  `sys.exit(1)` on prerequisite,
connectivity, database-creation, or schema-setup failure; a failing
`test_litellm_operations` only prints a warning and the script falls
through to the success epilogue, exiting `0`. -/
def spanner_schema_main (w : MainWorld) : MainOutcome :=
  if w.prereqOk = false then ⟨1, false⟩
  else if (SpannerSchema.test_spanner_connection w.conn).1.success = false then ⟨1, false⟩
  else if w.promptYes then
    if create_database_if_not_exists w.conn.databaseExists w.createOk = false then ⟨1, false⟩
    else if (setup_litellm_schema w.ddlOk w.verifySnapshotOk).1 = false then ⟨1, false⟩
    else ⟨0, !(test_litellm_operations w.opsDb).success⟩
  else ⟨0, false⟩

/-! ## Concrete inputs used by witnesses and counterexamples -/

/-- A target descriptor with arbitrary concrete identifiers. -/
def egTarget : TargetDescriptor := ⟨"my-project", "my-instance", "litellm-tokens"⟩

/-- Environment in which every probe step succeeds. -/
def envAllOk : SpannerEnv := ⟨egTarget, true, true, true, true⟩

/-- Environment whose instance exists but whose database does not. -/
def envDbMissing : SpannerEnv := ⟨egTarget, true, true, false, true⟩

/-- Environment whose instance does not exist. -/
def envInstMissing : SpannerEnv := ⟨egTarget, true, false, true, true⟩

/-- Environment in which the liveness query fails on an existing
database. -/
def envQueryFails : SpannerEnv := ⟨egTarget, true, true, true, false⟩

/-- Empty provisioned database at clock `0`. -/
def emptyDb : DBState := ⟨[], [], 0⟩

/-- A pre-existing token row that shares the sample row's `user_id` but has
a different primary key `token`. -/
def extraTokenRow : TokenRow :=
  { token := "sk-extra-token-999", user_id := some "test-user-123",
    created_at := 0, updated_at := 0 }

/-- Database containing `extraTokenRow` before the sample operations run. -/
def dbWithExtraToken : DBState := ⟨[], [extraTokenRow], 0⟩

/-- A pre-existing user row whose primary key collides with the sample
user row, making the insert transaction fail. -/
def collidingUserRow : UserRow := { user_id := "test-user-123", created_at := 0, updated_at := 0 }

/-- Database on which `test_litellm_operations` fails (primary-key
collision in the insert transaction). -/
def dbUserCollision : DBState := ⟨[collidingUserRow], [], 0⟩

/-- World in which every phase succeeds except the sample operation
runner. -/
def worldOpsFail : MainWorld :=
  { prereqOk := true, conn := envAllOk, promptYes := true, createOk := true,
    ddlOk := fun _ => true, verifySnapshotOk := true, opsDb := dbUserCollision }

/-! ## Helper lemmas on chunking and batch submission -/

theorem chunkedAux_flatten (s : Nat) : ∀ (fuel : Nat) (l : List α), l.length ≤ fuel →
    (chunkedAux s fuel l).flatten = l := by
  intro fuel
  induction fuel with
  | zero =>
    intro l h
    cases l with
    | nil => simp [chunkedAux]
    | cons x xs => simp at h
  | succ fuel ih =>
    intro l h
    cases l with
    | nil => simp [chunkedAux]
    | cons x xs =>
      have hxs : xs.length ≤ fuel := by simpa using h
      have hlen : (xs.drop s).length ≤ fuel := by
        simp only [List.length_drop]
        omega
      simp only [chunkedAux, List.flatten_cons, ih (xs.drop s) hlen]
      show List.take (s + 1) (x :: xs) ++ List.drop (s + 1) (x :: xs) = x :: xs
      exact List.take_append_drop _ _

theorem chunked_flatten (s : Nat) (l : List α) : (chunked (s + 1) l).flatten = l :=
  chunkedAux_flatten s l.length l (Nat.le_refl _)

theorem runDdlBatches_all_ok (ok : Nat → Bool) :
    ∀ (bs : List (List String)) (i : Nat), (∀ j, j < bs.length → ok (i + j) = true) →
    runDdlBatches ok i bs = (true, bs.map (fun b => (b, ddl_timeout))) := by
  intro bs
  induction bs with
  | nil => intro i _; rfl
  | cons b bs ih =>
    intro i h
    have h0 : ok i = true := by simpa using h 0 (by simp)
    have hr : ∀ j, j < bs.length → ok (i + 1 + j) = true := by
      intro j hj
      have := h (j + 1) (by simpa using Nat.succ_lt_succ hj)
      simpa [Nat.add_assoc, Nat.add_comm 1 j] using this
    simp [runDdlBatches, h0, ih (i + 1) hr]

theorem runDdlBatches_first_fail (ok : Nat → Bool) :
    ∀ (bs : List (List String)) (i k : Nat), k < bs.length →
    (∀ j, j < k → ok (i + j) = true) → ok (i + k) = false →
    runDdlBatches ok i bs = (false, (bs.take (k + 1)).map (fun b => (b, ddl_timeout))) := by
  intro bs
  induction bs with
  | nil =>
    intro i k hk
    simp at hk
  | cons b bs ih =>
    intro i k hk hpre hfail
    cases k with
    | zero =>
      have h0 : ok i = false := by simpa using hfail
      simp [runDdlBatches, h0]
    | succ k =>
      have h0 : ok i = true := by simpa using hpre 0 (Nat.succ_pos k)
      have hk' : k < bs.length := by simpa using Nat.lt_of_succ_lt_succ hk
      have hpre' : ∀ j, j < k → ok (i + 1 + j) = true := by
        intro j hj
        have := hpre (j + 1) (Nat.succ_lt_succ hj)
        simpa [Nat.add_assoc, Nat.add_comm 1 j] using this
      have hfail' : ok (i + 1 + k) = false := by
        simpa [Nat.add_assoc, Nat.add_comm 1 k] using hfail
      simp [runDdlBatches, h0, ih (i + 1) k hk' hpre' hfail']

/-! ## Claim theorems -/

/-- C1: on an existing database, `setup_litellm_schema` splits the ordered
DDL list into contiguous batches of at most 5 statements preserving order
(their concatenation is the original list), submits each batch as one
`update_database_ddl` call awaited with timeout 300, and on the first
failing batch submits nothing further and returns failure — each submitted
batch appears exactly once in the trace (no retry), and the failure is not
ignored. -/
theorem setup_schema_batches_spec (ok : Nat → Bool) (v : Bool) :
    ((chunked 5 get_litellm_spanner_ddl).flatten = get_litellm_spanner_ddl) ∧
    (∀ b ∈ chunked 5 get_litellm_spanner_ddl, b.length ≤ 5) ∧
    ((∀ j, j < (chunked 5 get_litellm_spanner_ddl).length → ok j = true) →
      setup_litellm_schema ok v =
        (v, (chunked 5 get_litellm_spanner_ddl).map (fun b => (b, ddl_timeout)))) ∧
    (∀ k, k < (chunked 5 get_litellm_spanner_ddl).length →
      (∀ j, j < k → ok j = true) → ok k = false →
      setup_litellm_schema ok v =
        (false,
         ((chunked 5 get_litellm_spanner_ddl).take (k + 1)).map (fun b => (b, ddl_timeout)))) := by
  refine ⟨chunked_flatten 4 _, by decide, ?_, ?_⟩
  · intro h
    have := runDdlBatches_all_ok ok (chunked 5 get_litellm_spanner_ddl) 0
      (fun j hj => by simpa using h j hj)
    simp [setup_litellm_schema, this]
  · intro k hk hpre hfail
    have := runDdlBatches_first_fail ok (chunked 5 get_litellm_spanner_ddl) 0 k hk
      (fun j hj => by simpa using hpre j hj) (by simpa using hfail)
    simp [setup_litellm_schema, this]

/-- Witness for C1: with all batches succeeding the three batches are
submitted in order; with batch 1 failing only batches 0 and 1 are
submitted and the result is failure. -/
theorem setup_schema_batches_spec_witness :
    setup_litellm_schema (fun _ => true) true =
      (true, (chunked 5 get_litellm_spanner_ddl).map (fun b => (b, ddl_timeout))) ∧
    setup_litellm_schema (fun j => decide (j = 0)) true =
      (false,
       ((chunked 5 get_litellm_spanner_ddl).take 2).map (fun b => (b, ddl_timeout))) := by
  constructor
  · exact (setup_schema_batches_spec (fun _ => true) true).2.2.1 (fun j _ => rfl)
  · exact (setup_schema_batches_spec (fun j => decide (j = 0)) true).2.2.2 1 (by decide)
      (fun j hj => by
        have : j = 0 := by omega
        simp [this]) (by decide)

/-- C5: for every batch size `n ≥ 1`, chunking the DDL list into
contiguous batches of size `n` concatenates back to the original list,
and folding any catalog-transition function over the batches in order
produces the same final state as folding over the un-chunked list. -/
theorem rebatching_final_state_invariance {α : Type} (apply : α → String → α) (s0 : α)
    (n : Nat) (h : 1 ≤ n) :
    (chunked n get_litellm_spanner_ddl).flatten = get_litellm_spanner_ddl ∧
    List.foldl (fun st batch => List.foldl apply st batch) s0
        (chunked n get_litellm_spanner_ddl) =
      List.foldl apply s0 get_litellm_spanner_ddl := by
  obtain ⟨m, rfl⟩ : ∃ m, n = m + 1 := ⟨n - 1, by omega⟩
  refine ⟨chunked_flatten m _, ?_⟩
  calc
    List.foldl (fun st batch => List.foldl apply st batch) s0
        (chunked (m + 1) get_litellm_spanner_ddl)
      = List.foldl apply s0 (chunked (m + 1) get_litellm_spanner_ddl).flatten :=
        (List.foldl_flatten apply s0 _).symm
    _ = List.foldl apply s0 get_litellm_spanner_ddl := by rw [chunked_flatten]

/-- Witness for C5: batch size 3, accumulating the applied statements. -/
theorem rebatching_final_state_invariance_witness :
    (1 : Nat) ≤ 3 ∧
    List.foldl (fun st batch => List.foldl (fun l s => l ++ [s]) st batch) ([] : List String)
        (chunked 3 get_litellm_spanner_ddl) =
      List.foldl (fun l s => l ++ [s]) [] get_litellm_spanner_ddl :=
  ⟨by omega, (rebatching_final_state_invariance (fun l s => l ++ [s]) [] 3 (by omega)).2⟩

/-- C6: in the DDL list, the first five statements create the user, team,
model, usage and verification-token tables, the remaining six create
indexes, each index references only the usage or verification-token
table, and every index statement occurs strictly after the table
statement creating the table it references. -/
theorem ddl_index_after_referenced_table :
    get_litellm_spanner_ddl.length = 11 ∧
    ((get_litellm_spanner_ddl.take 5).all isCreateTable = true) ∧
    ((get_litellm_spanner_ddl.take 5).map createdTableName = litellm_table_names) ∧
    ((get_litellm_spanner_ddl.drop 5).all isCreateIndex = true) ∧
    ((get_litellm_spanner_ddl.drop 5).all
      (fun s => indexedTableName s == "litellm_usagetable" ||
                indexedTableName s == "litellm_verificationtoken") = true) ∧
    (∀ i, i < 11 → isCreateIndex (get_litellm_spanner_ddl.getD i "") = true →
      ∃ j, j < i ∧ isCreateTable (get_litellm_spanner_ddl.getD j "") = true ∧
        createdTableName (get_litellm_spanner_ddl.getD j "") =
          indexedTableName (get_litellm_spanner_ddl.getD i "")) := by
  decide

set_option maxRecDepth 40000 in
/-- C9: with batch size 5 the first provisioning batch is exactly the five
table-creation statements and every later batch contains only
index-creation statements. -/
theorem batch_size_five_alignment :
    (chunked 5 get_litellm_spanner_ddl).length = 3 ∧
    (chunked 5 get_litellm_spanner_ddl).getD 0 [] = get_litellm_spanner_ddl.take 5 ∧
    ((chunked 5 get_litellm_spanner_ddl).getD 0 []).length = 5 ∧
    ((chunked 5 get_litellm_spanner_ddl).getD 0 []).all isCreateTable = true ∧
    ((chunked 5 get_litellm_spanner_ddl).drop 1).all (fun b => b.all isCreateIndex) = true := by
  decide

/-- C3 counterexample: with the instance existing and the database missing,
the connectivity probe of `spanner-schema.py` returns a success outcome
with a live database handle — not a distinct `DatabaseMissing` failure. -/
theorem schema_probe_success_on_missing_db_cex :
    (SpannerSchema.test_spanner_connection envDbMissing).1.success = true ∧
    (SpannerSchema.test_spanner_connection envDbMissing).1.database =
      some ⟨"litellm-tokens"⟩ := by
  decide

/-- C3 amended: when the instance exists but the database does not, the
standalone connect script's prober returns the failure value `False`
after emitting the database-missing diagnostic, while the setup script's
prober treats the missing database as non-fatal and returns a success
outcome with the handles so the database can be created during setup. -/
theorem probe_database_missing_behavior (env : SpannerEnv)
    (hc : env.clientInitOk = true) (hi : env.instanceExists = true)
    (hd : env.databaseExists = false) :
    (SpannerConnect.test_spanner_connection env).1 = false ∧
    ProbeStep.diagDatabaseMissing ∈ (SpannerConnect.test_spanner_connection env).2 ∧
    (SpannerSchema.test_spanner_connection env).1.success = true ∧
    (SpannerSchema.test_spanner_connection env).1.database = some ⟨env.target.databaseId⟩ ∧
    ProbeStep.diagDatabaseWillBeCreated ∈ (SpannerSchema.test_spanner_connection env).2 := by
  simp [SpannerConnect.test_spanner_connection, SpannerSchema.test_spanner_connection,
    hc, hi, hd]

/-- Witness for the amended C3 at the concrete database-missing
environment. -/
theorem probe_database_missing_behavior_witness :
    (SpannerConnect.test_spanner_connection envDbMissing).1 = false ∧
    (SpannerSchema.test_spanner_connection envDbMissing).1.success = true :=
  ⟨(probe_database_missing_behavior envDbMissing rfl rfl rfl).1,
   (probe_database_missing_behavior envDbMissing rfl rfl rfl).2.2.1⟩

/-- C8: when the instance identifier does not name an existing instance,
both connectivity probers return failure with the instance-missing
diagnostic and never resolve or existence-check the database, nor run the
liveness query. -/
theorem probe_instance_missing_no_db_check (env : SpannerEnv)
    (hc : env.clientInitOk = true) (hi : env.instanceExists = false) :
    (SpannerConnect.test_spanner_connection env).1 = false ∧
    ProbeStep.diagInstanceMissing ∈ (SpannerConnect.test_spanner_connection env).2 ∧
    ProbeStep.checkDatabase ∉ (SpannerConnect.test_spanner_connection env).2 ∧
    ProbeStep.runLiveness ∉ (SpannerConnect.test_spanner_connection env).2 ∧
    (SpannerSchema.test_spanner_connection env).1.success = false ∧
    ProbeStep.diagInstanceMissing ∈ (SpannerSchema.test_spanner_connection env).2 ∧
    ProbeStep.checkDatabase ∉ (SpannerSchema.test_spanner_connection env).2 ∧
    ProbeStep.runLiveness ∉ (SpannerSchema.test_spanner_connection env).2 := by
  simp [SpannerConnect.test_spanner_connection, SpannerSchema.test_spanner_connection,
    hc, hi]

/-- Witness for C8 at the concrete instance-missing environment. -/
theorem probe_instance_missing_no_db_check_witness :
    (SpannerConnect.test_spanner_connection envInstMissing).1 = false ∧
    ProbeStep.checkDatabase ∉ (SpannerSchema.test_spanner_connection envInstMissing).2 :=
  ⟨(probe_instance_missing_no_db_check envInstMissing rfl rfl).1,
   (probe_instance_missing_no_db_check envInstMissing rfl rfl).2.2.2.2.2.2.1⟩

/-- C10: whenever `test_spanner_connection` in `spanner-schema.py` returns
an unsuccessful outcome, the client, instance and database handles it
returns are all `None`. -/
theorem conn_failure_returns_no_handles (env : SpannerEnv)
    (h : (SpannerSchema.test_spanner_connection env).1.success = false) :
    (SpannerSchema.test_spanner_connection env).1.client = none ∧
    (SpannerSchema.test_spanner_connection env).1.inst = none ∧
    (SpannerSchema.test_spanner_connection env).1.database = none := by
  rcases env with ⟨t, ci, ie, de, q⟩
  cases ci <;> cases ie <;> cases de <;> cases q <;>
    simp_all [SpannerSchema.test_spanner_connection]

/-- Witness for C10 at an environment whose liveness query fails. -/
theorem conn_failure_returns_no_handles_witness :
    (SpannerSchema.test_spanner_connection envQueryFails).1.success = false ∧
    (SpannerSchema.test_spanner_connection envQueryFails).1.client = none ∧
    (SpannerSchema.test_spanner_connection envQueryFails).1.database = none :=
  ⟨by decide, (conn_failure_returns_no_handles envQueryFails (by decide)).1,
   (conn_failure_returns_no_handles envQueryFails (by decide)).2.2⟩

/-- C7: against a public schema holding exactly the five expected
application tables, the catalog query of `setup_litellm_schema` returns
exactly those five names in lexicographic order; and when no table name
matches the `litellm_` filter, `test_spanner_direct` reports the
no-tables warning, not an error, and still returns success. -/
theorem schema_verifier_five_tables :
    (∀ catalog : List String, catalog.Perm litellm_table_names →
      verifyTablesQuery catalog = litellm_table_names_sorted) ∧
    (∀ catalog : List String, catalog.filter hasLitellmPre = [] →
      (test_spanner_direct true true catalog).1.warnedNoTables = true ∧
      (test_spanner_direct true true catalog).1.queryFailed = false ∧
      (test_spanner_direct true true catalog).2 = true) := by
  constructor
  · intro catalog hperm
    have hfilter : catalog.filter hasLitellmPre = catalog := by
      rw [List.filter_eq_self]
      intro a ha
      have hmem : a ∈ litellm_table_names := hperm.mem_iff.mp ha
      simp only [litellm_table_names, List.mem_cons, List.not_mem_nil, or_false] at hmem
      rcases hmem with rfl | rfl | rfl | rfl | rfl <;> decide
    unfold verifyTablesQuery
    rw [hfilter]
    refine List.eq_of_perm_of_sorted (r := strLe) ?_ ?_ ?_
    · exact (List.perm_insertionSort strLe catalog).trans (hperm.trans (by decide))
    · exact List.sorted_insertionSort strLe catalog
    · decide
  · intro catalog hempty
    have h2 : (List.insertionSort strLe catalog).filter hasLitellmPre = [] :=
      List.Perm.eq_nil
        (by simpa [hempty] using (List.perm_insertionSort strLe catalog).filter hasLitellmPre)
    simp [test_spanner_direct, h2]

/-- Witness for C7: a shuffled catalog of the five tables, and a catalog
with no litellm tables. -/
theorem schema_verifier_five_tables_witness :
    verifyTablesQuery ["litellm_verificationtoken", "litellm_usertable", "litellm_usagetable",
        "litellm_teamtable", "litellm_proxymodeltable"] = litellm_table_names_sorted ∧
    (test_spanner_direct true true ["users", "orders"]).1.warnedNoTables = true ∧
    (test_spanner_direct true true ["users", "orders"]).1.queryFailed = false :=
  ⟨schema_verifier_five_tables.1 _ (by decide),
   (schema_verifier_five_tables.2 ["users", "orders"] (by decide)).1,
   (schema_verifier_five_tables.2 ["users", "orders"] (by decide)).2.1⟩

/-- C2 counterexample: in a world where every phase succeeds except the
sample operation runner, `main` of `spanner-schema.py` prints the
operations warning but exits with code 0; and the `__main__` block of
`test_spanner.py` exits 0 even when both of its tests fail. -/
theorem ops_failure_exits_zero_cex :
    (test_litellm_operations dbUserCollision).success = false ∧
    spanner_schema_main worldOpsFail = ⟨0, true⟩ ∧
    (test_spanner_script_main false false).1 = 0 := by
  decide

/-- C2 amended: the exit code of `main` in `spanner-schema.py` is always 0
or 1; it is 0 exactly when the prerequisites, the connectivity probe and
(when provisioning is confirmed) the database-creation and schema-setup
phases succeed; a failure of the sample operation runner only triggers
the printed warning while the exit code stays 0; and the simplified test
script `test_spanner.py` exits 0 on every path. -/
theorem exit_code_amended (w : MainWorld) :
    ((spanner_schema_main w).exitCode = 0 ∨ (spanner_schema_main w).exitCode = 1) ∧
    ((spanner_schema_main w).exitCode = 0 ↔
      (w.prereqOk = true ∧ (SpannerSchema.test_spanner_connection w.conn).1.success = true ∧
        (w.promptYes = true →
          create_database_if_not_exists w.conn.databaseExists w.createOk = true ∧
          (setup_litellm_schema w.ddlOk w.verifySnapshotOk).1 = true))) ∧
    ((spanner_schema_main w).opsWarning = true →
      (spanner_schema_main w).exitCode = 0 ∧
      (test_litellm_operations w.opsDb).success = false) ∧
    (∀ d s : Bool, (test_spanner_script_main d s).1 = 0) := by
  rcases w with ⟨p, conn, pr, c, dk, v, odb⟩
  cases p <;> cases pr <;>
    cases hcs : (SpannerSchema.test_spanner_connection conn).1.success <;>
    cases hcr : create_database_if_not_exists conn.databaseExists c <;>
    cases hst : (setup_litellm_schema dk v).1 <;>
    cases hop : (test_litellm_operations odb).success <;>
    simp_all [spanner_schema_main, test_spanner_script_main]

/-- Witness for the amended C2: the all-phases-green path (with the sample
runner failing) exits 0. -/
theorem exit_code_amended_witness :
    (spanner_schema_main worldOpsFail).exitCode = 0 ∧
    (test_spanner_script_main true false).1 = 0 :=
  ⟨(exit_code_amended worldOpsFail).2.1.mpr ⟨rfl, by decide, fun _ => ⟨by decide, by decide⟩⟩,
   (exit_code_amended worldOpsFail).2.2.2 true false⟩

/-- C4 counterexample: the snapshot lookup and the cleanup deletion on the
verification-token table use the sample `user_id`, not the table's
primary key `token`.  With a pre-existing token row sharing the sample
`user_id` but carrying a different primary key, the run succeeds, the
snapshot returns two token rows, and the cleanup also deletes the
pre-existing row — which a deletion by the inserted primary key (the
spec's wording, `specCleanupByPrimaryKey`) would have kept. -/
theorem sample_ops_cleanup_not_by_primary_key_cex :
    (test_litellm_operations dbWithExtraToken).success = true ∧
    extraTokenRow ∈ dbWithExtraToken.verificationtoken ∧
    (extraTokenRow.token == "sk-test-token-123") = false ∧
    (test_litellm_operations dbWithExtraToken).tokenRows.length = 2 ∧
    extraTokenRow ∉ (test_litellm_operations dbWithExtraToken).finalDb.verificationtoken ∧
    extraTokenRow ∈ (specCleanupByPrimaryKey
      ((run_in_transaction dbWithExtraToken insert_test_data).getD
        dbWithExtraToken)).verificationtoken := by
  decide

/-- C4 amended: on a provisioned database with no row keyed by the sample
identifiers and no token row carrying the sample `user_id`, the runner
executes one write transaction inserting exactly one row into each of the
two tables with both commit-timestamp columns stamped by the committing
transaction, then a read-only snapshot that looks the rows up by the
sample `user_id` (the primary key of the user table, a non-key indexed
column of the token table), then one write transaction deleting the rows
matching that `user_id`; on success no residual sample rows remain. -/
theorem sample_ops_lifecycle (db : DBState)
    (hU : ∀ r ∈ db.usertable, r.user_id ≠ "test-user-123")
    (hT : ∀ r ∈ db.verificationtoken, r.token ≠ "sk-test-token-123")
    (hT2 : ∀ r ∈ db.verificationtoken, r.user_id ≠ some "test-user-123") :
    run_in_transaction db insert_test_data = some
      ⟨db.usertable ++ [sampleUserRow db.commitClock],
       db.verificationtoken ++ [sampleTokenRow db.commitClock],
       db.commitClock + 1⟩ ∧
    (test_litellm_operations db).success = true ∧
    (test_litellm_operations db).userRows =
      [("test-user-123", some "test@example.com", some 100)] ∧
    (test_litellm_operations db).tokenRows =
      [("sk-test-token-123", some "test-user-123", some 50)] ∧
    (test_litellm_operations db).finalDb.usertable = db.usertable ∧
    (test_litellm_operations db).finalDb.verificationtoken = db.verificationtoken := by
  have hAnyU : (db.usertable.any fun r => r.user_id == "test-user-123") = false := by
    rw [List.any_eq_false]
    intro r hr
    simp only [beq_iff_eq]
    exact hU r hr
  have hAnyT : (db.verificationtoken.any fun r => r.token == "sk-test-token-123") = false := by
    rw [List.any_eq_false]
    intro r hr
    simp only [beq_iff_eq]
    exact hT r hr
  have htxn : run_in_transaction db insert_test_data = some
      ⟨db.usertable ++ [sampleUserRow db.commitClock],
       db.verificationtoken ++ [sampleTokenRow db.commitClock],
       db.commitClock + 1⟩ := by
    simp [run_in_transaction, insert_test_data, hAnyU, hAnyT]
  have hfU : db.usertable.filter (fun r => r.user_id == "test-user-123") = [] := by
    rw [List.filter_eq_nil_iff]
    intro r hr
    simp only [beq_iff_eq]
    exact hU r hr
  have hfT : db.verificationtoken.filter (fun r => r.user_id == some "test-user-123") = [] := by
    rw [List.filter_eq_nil_iff]
    intro r hr
    simp only [beq_iff_eq]
    exact hT2 r hr
  have hkU : db.usertable.filter (fun r => !(r.user_id == "test-user-123")) = db.usertable := by
    rw [List.filter_eq_self]
    intro r hr
    simp only [Bool.not_eq_true', beq_eq_false_iff_ne]
    exact hU r hr
  have hkT : db.verificationtoken.filter (fun r => !(r.user_id == some "test-user-123")) =
      db.verificationtoken := by
    rw [List.filter_eq_self]
    intro r hr
    simp only [Bool.not_eq_true', beq_eq_false_iff_ne]
    exact hT2 r hr
  have hqU : queryUserRows "test-user-123"
      ⟨db.usertable ++ [sampleUserRow db.commitClock],
       db.verificationtoken ++ [sampleTokenRow db.commitClock], db.commitClock + 1⟩ =
      [("test-user-123", some "test@example.com", some 100)] := by
    unfold queryUserRows
    simp [List.filter_append, hfU, sampleUserRow]
  have hqT : queryTokenRows "test-user-123"
      ⟨db.usertable ++ [sampleUserRow db.commitClock],
       db.verificationtoken ++ [sampleTokenRow db.commitClock], db.commitClock + 1⟩ =
      [("sk-test-token-123", some "test-user-123", some 50)] := by
    unfold queryTokenRows
    simp [List.filter_append, hfT, sampleTokenRow]
  have hclean : run_in_transaction
      ⟨db.usertable ++ [sampleUserRow db.commitClock],
       db.verificationtoken ++ [sampleTokenRow db.commitClock], db.commitClock + 1⟩
      cleanup_test_data = some ⟨db.usertable, db.verificationtoken, db.commitClock + 1 + 1⟩ := by
    simp [run_in_transaction, cleanup_test_data, List.filter_append, hkU, hkT,
      sampleUserRow, sampleTokenRow]
  have hops : test_litellm_operations db =
      ⟨true, ⟨db.usertable, db.verificationtoken, db.commitClock + 1 + 1⟩,
       [("test-user-123", some "test@example.com", some 100)],
       [("sk-test-token-123", some "test-user-123", some 50)]⟩ := by
    unfold test_litellm_operations
    rw [htxn]
    simp only [hqU, hqT, hclean]
  exact ⟨htxn, by rw [hops], by rw [hops], by rw [hops], by rw [hops], by rw [hops]⟩

/-- Witness for the amended C4: starting from the empty provisioned
database the run succeeds and leaves both tables empty. -/
theorem sample_ops_lifecycle_witness :
    (test_litellm_operations emptyDb).success = true ∧
    (test_litellm_operations emptyDb).finalDb.usertable = [] ∧
    (test_litellm_operations emptyDb).finalDb.verificationtoken = [] := by
  have h := sample_ops_lifecycle emptyDb (by simp [emptyDb]) (by simp [emptyDb])
    (by simp [emptyDb])
  exact ⟨h.2.1, h.2.2.2.2.1, h.2.2.2.2.2⟩
